import Mathlib

/-!
Verification of the E261 repository (voice-driven flight-delay-claim intake).

The browser-side intro controller is embedded from
src/voice-intake/dist/intro_post.js: a helper that posts IntroSignal
messages to the parent frame, and a DOMContentLoaded script that wires the
video, the skip button, cross-frame messages and first-gesture audio
resumption to a navigation latch.

The URL joining of src/backend/static/api_wrapper.js is embedded as string
functions.

The conversation session manager (the backend endpoints) is not present in
the repository sources, so it is modelled from the specification, as marked
on the relevant definitions.
-/

namespace E261

/-! ### The intro controller state

One record per DOM quantity the script reads or writes.  `navCount` counts
the assignments to location.href performed inside goToOrb; `posted` records
every IntroSignal type posted to the parent frame by the controller
handlers; `clickL`, `keyL`, `touchL` say whether the three document-level
first-gesture listeners are still attached; `gestureRuns` counts the
invocations of onFirstGesture; `audioResumes` counts the calls to
ensureAudioContext. -/
structure IntroState where
  navigated : Bool
  navCount : Nat
  muted : Bool
  volume : Nat
  playAttempts : Nat
  audioResumes : Nat
  posted : List String
  clickL : Bool
  keyL : Bool
  touchL : Bool
  gestureRuns : Nat
deriving DecidableEq, Repr

/-- The state right after the DOMContentLoaded handler ran: nothing
navigated, video still muted (autoplay muted markup), the three
first-gesture listeners attached. -/
def introInit : IntroState :=
  { navigated := false, navCount := 0, muted := true, volume := 1
    playAttempts := 0, audioResumes := 0, posted := []
    clickL := true, keyL := true, touchL := true, gestureRuns := 0 }

/-- goToOrb from intro_post.js: if the latch is set, return; otherwise set
the latch and assign location.href (counted by navCount). -/
def goToOrb (s : IntroState) : IntroState :=
  if s.navigated then s
  else { s with navigated := true, navCount := s.navCount + 1 }

/-- ensureAudioContext: creates or resumes the audio context inside a
try/catch; the only state we track is that an attempt was made. -/
def ensureAudio (s : IntroState) : IntroState :=
  { s with audioResumes := s.audioResumes + 1 }

/-- The click listener on the video element: resume audio, then unmute
(volume 1, play attempt) when muted, else mute again. -/
def videoClickHandler (s : IntroState) : IntroState :=
  let s1 := ensureAudio s
  if s1.muted then
    { s1 with muted := false, volume := 1, playAttempts := s1.playAttempts + 1 }
  else
    { s1 with muted := true }

/-- onFirstGesture: resume audio and remove all three document listeners. -/
def onFirstGesture (s : IntroState) : IntroState :=
  let s1 := ensureAudio s
  { s1 with clickL := false, keyL := false, touchL := false
            gestureRuns := s1.gestureRuns + 1 }

/-- The three kinds of document-level gesture listeners. -/
inductive GKind
  | gclick
  | gkey
  | gtouch
deriving DecidableEq, Repr

/-- Dispatch of a gesture to the document: the listener runs only while
attached; it was registered once-only, so it detaches when it fires (and
onFirstGesture itself removes all three). -/
def fireDocListener (k : GKind) (s : IntroState) : IntroState :=
  match k with
  | .gclick => if s.clickL then onFirstGesture { s with clickL := false } else s
  | .gkey => if s.keyL then onFirstGesture { s with keyL := false } else s
  | .gtouch => if s.touchL then onFirstGesture { s with touchL := false } else s

/-! ### Cross-frame messages -/

/-- The value found at the type field of a received message payload. -/
inductive TField
  | absent
  | nonString
  | str (t : String)
deriving DecidableEq, Repr

/-- The payload of a received message: null, undefined, or an object with
some type field. -/
inductive MsgData
  | jsNull
  | jsUndefined
  | obj (tf : TField)
deriving DecidableEq, Repr

/-- A message event as delivered to the listener: the sender origin and
the payload.  The source listener reads only the payload. -/
structure MessageEvent where
  origin : String
  data : MsgData
deriving DecidableEq, Repr

/-- JavaScript truthiness of the payload dimension we model: null and
undefined are falsy, objects are truthy. -/
def isFalsyData : MsgData → Bool
  | .jsNull => true
  | .jsUndefined => true
  | .obj _ => false

/-- Reading d.type: throws a TypeError when d is null or undefined,
otherwise yields the field. -/
def readTypeField : MsgData → Except Unit TField
  | .jsNull => .error ()
  | .jsUndefined => .error ()
  | .obj tf => .ok tf

/-- The recognized IntroSignal types, exactly as enumerated in the
listener. -/
def recognizedType (t : String) : Bool :=
  t = "intro-skip" || t = "intro-ended" || t = "intro-transition"

/-- The body of the message listener, before the surrounding try/catch:
return early when the payload is falsy or its type field is not a string;
navigate when the type is recognized.  An error value means a thrown
exception. -/
def messageBody (s : IntroState) (ev : MessageEvent) : Except Unit IntroState :=
  if isFalsyData ev.data then .ok s
  else
    match readTypeField ev.data with
    | .error e => .error e
    | .ok (.str t) => if recognizedType t then .ok (goToOrb s) else .ok s
    | .ok _ => .ok s

/-- The full message listener: the try/catch swallows any exception of the
body, leaving the state unchanged. -/
def onMessage (s : IntroState) (ev : MessageEvent) : IntroState :=
  match messageBody s ev with
  | .ok s1 => s1
  | .error _ => s

/-! ### Events and the controller step function -/

/-- The outside events the controller reacts to.  A click on the video or
on the skip button bubbles up to the document, so those events also
dispatch the document-level click listener. -/
inductive Event
  | mediaEnded
  | skipClick
  | message (ev : MessageEvent)
  | videoClick
  | docClick
  | keydown
  | touchstart
deriving DecidableEq, Repr

/-- One event dispatched to the controller. -/
def step (s : IntroState) : Event → IntroState
  | .mediaEnded => goToOrb s
  | .skipClick => fireDocListener .gclick (goToOrb s)
  | .message ev => onMessage s ev
  | .videoClick => fireDocListener .gclick (videoClickHandler s)
  | .docClick => fireDocListener .gclick s
  | .keydown => fireDocListener .gkey s
  | .touchstart => fireDocListener .gtouch s

/-- Run a sequence of events from the fresh controller state. -/
def run (evs : List Event) : IntroState :=
  evs.foldl step introInit

/-- The events that reach goToOrb: media end, skip click, and a message
whose payload is an object carrying a recognized string type. -/
def triggersNav : Event → Bool
  | .mediaEnded => true
  | .skipClick => true
  | .message ev =>
    match ev.data with
    | .obj (.str t) => recognizedType t
    | _ => false
  | _ => false

/-- The latch invariant: either the controller has not navigated and no
location.href assignment happened, or it has and exactly one happened. -/
def navGood (s : IntroState) : Prop :=
  (s.navigated = false ∧ s.navCount = 0) ∨
  (s.navigated = true ∧ s.navCount = 1)

/-- All three first-gesture listeners attached and no run yet. -/
def gestureArmed (s : IntroState) : Prop :=
  s.gestureRuns = 0 ∧ s.clickL = true ∧ s.keyL = true ∧ s.touchL = true

/-- First-gesture handler ran exactly once and all listeners removed. -/
def gestureFired (s : IntroState) : Prop :=
  s.gestureRuns = 1 ∧ s.clickL = false ∧ s.keyL = false ∧ s.touchL = false

/-- The gesture-listener invariant. -/
def gestureGood (s : IntroState) : Prop :=
  gestureArmed s ∨ gestureFired s

/-- The events that dispatch one of the three document-level gesture
listeners (a click anywhere, including on the video or the skip button, a
keydown, a touchstart). -/
def isGestureEvent : Event → Bool
  | .skipClick => true
  | .videoClick => true
  | .docClick => true
  | .keydown => true
  | .touchstart => true
  | _ => false

/-- A payload the claim calls malformed: null or undefined, no string
type field, or a type outside the recognized set. -/
def malformedData : MsgData → Bool
  | .jsNull => true
  | .jsUndefined => true
  | .obj .absent => true
  | .obj .nonString => true
  | .obj (.str t) => !recognizedType t

/-! ### safePost, the IntroSignal emitter

The first script of intro_post.js defines safePost and exposes it as
window.post (when unset) and window.postIntro.  Its two postMessage calls
may each throw (for example under cross-origin embedding restrictions);
the environment records which ones do. -/

/-- The target origin argument of a postMessage call: the page origin
(location.origin) or the wildcard. -/
inductive PostTarget
  | sameOrigin
  | star
deriving DecidableEq, Repr

/-- Which of the two postMessage calls would throw in the current
embedding. -/
structure PostEnv where
  sameOriginThrows : Bool
  starThrows : Bool
deriving DecidableEq, Repr

/-- One postMessage attempt of the payload to a target origin. -/
def postMessageTo (env : PostEnv) (t : PostTarget) : Except Unit Unit :=
  match t with
  | .sameOrigin => if env.sameOriginThrows then .error () else .ok ()
  | .star => if env.starThrows then .error () else .ok ()

/-- safePost from intro_post.js: try posting to the page origin; on a
throw, try the wildcard origin inside a second try whose catch swallows
everything.  The result lists the attempts made in order, paired with the
type argument, and carries the exception behaviour visible to the caller
(always a normal return). -/
def safePost (env : PostEnv) (ty : String) :
    List (PostTarget × String) × Except Unit Unit :=
  match postMessageTo env .sameOrigin with
  | .ok _ => ([(.sameOrigin, ty)], .ok ())
  | .error _ =>
    match postMessageTo env .star with
    | .ok _ => ([(.sameOrigin, ty), (.star, ty)], .ok ())
    | .error _ => ([(.sameOrigin, ty), (.star, ty)], .ok ())

/-- The fixed origin of the intro page (location.origin); its concrete
value is arbitrary. -/
def pageOrigin : String := "https://app.example"

/-! ### The conversation session manager

Modelled from the spec: the backend exposing /conversation/start and
/conversation/respond is not among the repository sources (only the static
frontend is), so the Session data model and the start/respond operations
are taken from the specification: a session holds append-only turns, a
last-write-wins collectedFields map and a status; respond fails with
NotFound on an unknown or terminal session, and concurrent respond calls
on one session are serialized in issue order. -/

/-- Session status, from the spec data model. -/
inductive Status
  | ACTIVE
  | AWAITING_USER
  | COMPLETE
  | FAILED
deriving DecidableEq, Repr

/-- Speaker of one turn. -/
inductive Speaker
  | user
  | assistant
deriving DecidableEq, Repr

/-- Modelled from the spec: one conversation session (turns, collected
claim fields, status). -/
structure Session where
  turns : List (Speaker × String)
  collectedFields : List (String × String)
  status : Status
deriving DecidableEq, Repr

/-- Modelled from the spec: the manager holds the live sessions keyed by
sessionId, and the next fresh id. -/
structure ManagerState where
  sessions : List (Nat × Session)
  nextId : Nat
deriving DecidableEq, Repr

/-- The error taxonomy of the spec that start/respond can surface. -/
inductive SessionError
  | NotFound
  | UpstreamUnavailable
  | InvalidState
deriving DecidableEq, Repr

/-- What the delegated external conversational backend returns for one
respond call: the assistant reply, the newly extracted fields, and the
status the session moves to. -/
structure BackendReply where
  assistantReply : String
  extractedFields : List (String × String)
  newStatus : Status
deriving DecidableEq, Repr

/-- Field lookup in the collectedFields association list. -/
def lookupField (fs : List (String × String)) (k : String) : Option String :=
  match fs with
  | [] => none
  | (k1, v) :: rest => if k1 = k then some v else lookupField rest k

/-- Last-write-wins update of one field. -/
def setField (fs : List (String × String)) (k v : String) :
    List (String × String) :=
  match fs with
  | [] => [(k, v)]
  | (k1, v1) :: rest =>
    if k1 = k then (k1, v) :: rest else (k1, v1) :: setField rest k v

/-- Merge newly extracted fields into the collected ones, last write
wins per key. -/
def mergeFields (old new : List (String × String)) : List (String × String) :=
  new.foldl (fun acc kv => setField acc kv.1 kv.2) old

/-- Session lookup by id. -/
def lookupSession (l : List (Nat × Session)) (sid : Nat) : Option Session :=
  match l with
  | [] => none
  | (i, s) :: rest => if i = sid then some s else lookupSession rest sid

/-- Replace the session stored under an id. -/
def updateSession (l : List (Nat × Session)) (sid : Nat) (s1 : Session) :
    List (Nat × Session) :=
  l.map (fun p => if p.1 = sid then (sid, s1) else p)

/-- Modelled from the spec: start creates a fresh ACTIVE session with a
never-reused id and returns the id. -/
def start (st : ManagerState) : ManagerState × Nat :=
  ({ sessions := (st.nextId, ⟨[], [], .ACTIVE⟩) :: st.sessions
     nextId := st.nextId + 1 }, st.nextId)

/-- Modelled from the spec: respond fails with NotFound when the id is
unknown or the session is COMPLETE or FAILED; otherwise it appends the
user turn and the assistant turn, merges the extracted fields last write
wins, and moves to the status reported by the backend. -/
def respond (st : ManagerState) (sid : Nat) (utt : String)
    (r : BackendReply) : Except SessionError (ManagerState × String × Status) :=
  match lookupSession st.sessions sid with
  | none => .error .NotFound
  | some sess =>
    if sess.status = .COMPLETE ∨ sess.status = .FAILED then .error .NotFound
    else
      let sess1 : Session :=
        { turns := sess.turns ++ [(.user, utt), (.assistant, r.assistantReply)]
          collectedFields := mergeFields sess.collectedFields r.extractedFields
          status := r.newStatus }
      .ok ({ st with sessions := updateSession st.sessions sid sess1 },
           r.assistantReply, r.newStatus)

/-- One queued respond request: the session id, the user utterance, and
the backend reply its delegated call will produce. -/
structure RespondReq where
  sid : Nat
  utt : String
  reply : BackendReply
deriving DecidableEq, Repr

/-- Apply one queued respond request to the manager; a failed call leaves
the state untouched. -/
def stepReq (st : ManagerState) (r : RespondReq) : ManagerState :=
  match respond st r.sid r.utt r.reply with
  | .ok (st1, _, _) => st1
  | .error _ => st

/-- Modelled from the spec: concurrent respond calls on one session are
serialized, queue-and-wait, so their effects apply sequentially in issue
order. -/
def runSerialized (st : ManagerState) (reqs : List RespondReq) : ManagerState :=
  reqs.foldl stepReq st

/-! ### apiFetch URL joining (src/backend/static/api_wrapper.js) -/

/-- A character allowed after the first one in a URI scheme:
[a-zA-Z0-9+\-.]. -/
def isSchemeRestChar (c : Char) : Bool :=
  c.isAlpha || c.isDigit || c = '+' || c = '-' || c = '.'

/-- Scan after the leading letter: a colon completes the scheme, scheme
characters continue, anything else fails.  Equivalent to the anchored
regex of the source because the colon is not a scheme character. -/
def schemeScan : List Char → Bool
  | [] => false
  | c :: rest =>
    if c = ':' then true
    else if isSchemeRestChar c then schemeScan rest else false

/-- The test of the source regex: does the string start with a letter,
then scheme characters, then a colon. -/
def startsWithScheme (s : String) : Bool :=
  match s.data with
  | [] => false
  | c :: rest => c.isAlpha && schemeScan rest

/-- replace of every trailing slash by nothing. -/
def stripTrailingSlashes (s : String) : String :=
  ⟨(s.data.reverse.dropWhile (fun c => c = '/')).reverse⟩

/-- replace of every leading slash by nothing. -/
def stripLeadingSlashes (s : String) : String :=
  ⟨s.data.dropWhile (fun c => c = '/')⟩

/-- JavaScript || on the optional configuration string: undefined and the
empty string fall back. -/
def jsOr (a : Option String) (b : String) : String :=
  match a with
  | none => b
  | some s => if s = "" then b else s

/-- The BASE constant of api_wrapper.js: the configured base URL, or else
the page origin, with trailing slashes stripped. -/
def apiBase (apiBaseUrl : Option String) (origin : String) : String :=
  stripTrailingSlashes (jsOr apiBaseUrl origin)

/-- apiFetch from api_wrapper.js, reduced to the URL it passes to fetch:
a path carrying a scheme is used unchanged, anything else is joined to
BASE with one slash after stripping the leading slashes of the path. -/
def apiFetch (apiBaseUrl : Option String) (origin : String) (path : String) :
    String :=
  if startsWithScheme path then path
  else apiBase apiBaseUrl origin ++ "/" ++ stripLeadingSlashes path

/-! ## Helper lemmas on the intro controller -/

theorem goToOrb_navigated_true (s : IntroState) : (goToOrb s).navigated = true := by
  unfold goToOrb; split <;> simp_all

theorem goToOrb_of_navigated {s : IntroState} (h : s.navigated = true) :
    goToOrb s = s := by
  unfold goToOrb; simp [h]

theorem goToOrb_of_not {s : IntroState} (h : s.navigated = false) :
    goToOrb s = { s with navigated := true, navCount := s.navCount + 1 } := by
  unfold goToOrb; simp [h]

theorem fireDoc_navigated (k : GKind) (s : IntroState) :
    (fireDocListener k s).navigated = s.navigated := by
  cases k <;> dsimp [fireDocListener] <;> split <;> rfl

theorem fireDoc_navCount (k : GKind) (s : IntroState) :
    (fireDocListener k s).navCount = s.navCount := by
  cases k <;> dsimp [fireDocListener] <;> split <;> rfl

theorem fireDoc_muted (k : GKind) (s : IntroState) :
    (fireDocListener k s).muted = s.muted := by
  cases k <;> dsimp [fireDocListener] <;> split <;> rfl

theorem fireDoc_volume (k : GKind) (s : IntroState) :
    (fireDocListener k s).volume = s.volume := by
  cases k <;> dsimp [fireDocListener] <;> split <;> rfl

theorem fireDoc_playAttempts (k : GKind) (s : IntroState) :
    (fireDocListener k s).playAttempts = s.playAttempts := by
  cases k <;> dsimp [fireDocListener] <;> split <;> rfl

theorem fireDoc_posted (k : GKind) (s : IntroState) :
    (fireDocListener k s).posted = s.posted := by
  cases k <;> dsimp [fireDocListener] <;> split <;> rfl

theorem fireDoc_audioResumes_ge (k : GKind) (s : IntroState) :
    s.audioResumes ≤ (fireDocListener k s).audioResumes := by
  cases k <;> dsimp [fireDocListener] <;> split <;> simp [onFirstGesture, ensureAudio]

theorem videoClick_navigated (s : IntroState) :
    (videoClickHandler s).navigated = s.navigated := by
  dsimp [videoClickHandler]
  split <;> rfl

theorem videoClick_navCount (s : IntroState) :
    (videoClickHandler s).navCount = s.navCount := by
  dsimp [videoClickHandler]
  split <;> rfl

theorem onMessage_cases (s : IntroState) (ev : MessageEvent) :
    onMessage s ev = s ∨ onMessage s ev = goToOrb s := by
  obtain ⟨o, d⟩ := ev
  cases d with
  | jsNull => left; rfl
  | jsUndefined => left; rfl
  | obj tf =>
    cases tf with
    | absent => left; rfl
    | nonString => left; rfl
    | str t =>
      by_cases h : recognizedType t = true
      · right
        simp [onMessage, messageBody, isFalsyData, readTypeField, h]
      · left
        simp [onMessage, messageBody, isFalsyData, readTypeField, h]

theorem step_nav (s : IntroState) (e : Event) :
    ((step s e).navigated = s.navigated ∧ (step s e).navCount = s.navCount) ∨
    (s.navigated = false ∧ (step s e).navigated = true ∧
      (step s e).navCount = s.navCount + 1) := by
  have hOrb : ((goToOrb s).navigated = s.navigated ∧
      (goToOrb s).navCount = s.navCount) ∨
      (s.navigated = false ∧ (goToOrb s).navigated = true ∧
        (goToOrb s).navCount = s.navCount + 1) := by
    cases h : s.navigated
    · right; rw [goToOrb_of_not h]; exact ⟨rfl, rfl, rfl⟩
    · left; rw [goToOrb_of_navigated h]; exact ⟨h, rfl⟩
  cases e with
  | mediaEnded => exact hOrb
  | skipClick =>
    have h1 : (step s .skipClick).navigated = (goToOrb s).navigated :=
      fireDoc_navigated _ _
    have h2 : (step s .skipClick).navCount = (goToOrb s).navCount :=
      fireDoc_navCount _ _
    rw [h1, h2]; exact hOrb
  | message ev =>
    rcases onMessage_cases s ev with h | h
    · left
      have : step s (.message ev) = s := h
      rw [this]; exact ⟨rfl, rfl⟩
    · have : step s (.message ev) = goToOrb s := h
      rw [this]; exact hOrb
  | videoClick =>
    left
    have h1 : (step s .videoClick).navigated = (videoClickHandler s).navigated :=
      fireDoc_navigated _ _
    have h2 : (step s .videoClick).navCount = (videoClickHandler s).navCount :=
      fireDoc_navCount _ _
    rw [h1, h2, videoClick_navigated, videoClick_navCount]; exact ⟨rfl, rfl⟩
  | docClick => left; exact ⟨fireDoc_navigated _ _, fireDoc_navCount _ _⟩
  | keydown => left; exact ⟨fireDoc_navigated _ _, fireDoc_navCount _ _⟩
  | touchstart => left; exact ⟨fireDoc_navigated _ _, fireDoc_navCount _ _⟩

theorem navGood_step (s : IntroState) (e : Event) (h : navGood s) :
    navGood (step s e) := by
  rcases step_nav s e with ⟨h1, h2⟩ | ⟨h0, h1, h2⟩
  · rcases h with ⟨a, b⟩ | ⟨a, b⟩
    · left; exact ⟨h1.trans a, h2.trans b⟩
    · right; exact ⟨h1.trans a, h2.trans b⟩
  · right
    rcases h with ⟨a, b⟩ | ⟨a, b⟩
    · exact ⟨h1, by rw [h2, b]⟩
    · rw [a] at h0; exact absurd h0 (by simp)

theorem step_navigated_mono (s : IntroState) (e : Event)
    (h : s.navigated = true) : (step s e).navigated = true := by
  rcases step_nav s e with ⟨h1, _⟩ | ⟨_, h1, _⟩
  · rw [h1, h]
  · exact h1

theorem step_trigger (s : IntroState) (e : Event) (h : triggersNav e = true) :
    (step s e).navigated = true := by
  cases e with
  | mediaEnded => exact goToOrb_navigated_true s
  | skipClick =>
    have h1 : (step s .skipClick).navigated = (goToOrb s).navigated :=
      fireDoc_navigated _ _
    rw [h1]; exact goToOrb_navigated_true s
  | message ev =>
    obtain ⟨o, d⟩ := ev
    cases d with
    | jsNull => simp [triggersNav] at h
    | jsUndefined => simp [triggersNav] at h
    | obj tf =>
      cases tf with
      | absent => simp [triggersNav] at h
      | nonString => simp [triggersNav] at h
      | str t =>
        have h1 : recognizedType t = true := by simpa [triggersNav] using h
        show (onMessage s ⟨o, .obj (.str t)⟩).navigated = true
        simp [onMessage, messageBody, isFalsyData, readTypeField, h1,
          goToOrb_navigated_true]
  | videoClick => simp [triggersNav] at h
  | docClick => simp [triggersNav] at h
  | keydown => simp [triggersNav] at h
  | touchstart => simp [triggersNav] at h

theorem foldl_navGood (evs : List Event) :
    ∀ s, navGood s → navGood (evs.foldl step s) := by
  induction evs with
  | nil => intro s h; exact h
  | cons e rest ih => intro s h; exact ih _ (navGood_step s e h)

theorem foldl_navigated_mono (evs : List Event) :
    ∀ s, s.navigated = true → (evs.foldl step s).navigated = true := by
  induction evs with
  | nil => intro s h; exact h
  | cons e rest ih => intro s h; exact ih _ (step_navigated_mono s e h)

/-- C1: over any nonempty sequence of triggering events (media ended, skip
click, external messages with a recognized type) delivered to one intro
controller instance, the location.href assignment inside goToOrb happens
exactly once; every later triggering event is a no-op because the
navigated latch is set by the first one. -/
theorem intro_nav_exactly_once (evs : List Event)
    (hall : ∀ e ∈ evs, triggersNav e = true) (hne : evs ≠ []) :
    (run evs).navCount = 1 := by
  cases evs with
  | nil => exact absurd rfl hne
  | cons e rest =>
    have h1 : (step introInit e).navigated = true :=
      step_trigger introInit e (hall e (List.mem_cons_self e rest))
    have hg0 : navGood introInit := Or.inl ⟨rfl, rfl⟩
    have hg1 : navGood (step introInit e) := navGood_step introInit e hg0
    have h2 : (rest.foldl step (step introInit e)).navigated = true :=
      foldl_navigated_mono rest _ h1
    have hg2 : navGood (rest.foldl step (step introInit e)) :=
      foldl_navGood rest _ hg1
    show (rest.foldl step (step introInit e)).navCount = 1
    rcases hg2 with ⟨ha, _⟩ | ⟨_, hb⟩
    · rw [h2] at ha; exact absurd ha (by simp)
    · exact hb

/-- Witness for C1 at a concrete three-trigger sequence. -/
theorem intro_nav_exactly_once_witness :
    (run [Event.mediaEnded, Event.skipClick,
      Event.message ⟨"https://parent.example", .obj (.str "intro-skip")⟩]).navCount
      = 1 :=
  intro_nav_exactly_once _ (by decide) (by decide)

theorem goToOrb_posted (s : IntroState) : (goToOrb s).posted = s.posted := by
  unfold goToOrb; split <;> rfl

theorem goToOrb_gfields (s : IntroState) :
    (goToOrb s).clickL = s.clickL ∧ (goToOrb s).keyL = s.keyL ∧
    (goToOrb s).touchL = s.touchL ∧ (goToOrb s).gestureRuns = s.gestureRuns := by
  unfold goToOrb; split <;> exact ⟨rfl, rfl, rfl, rfl⟩

theorem videoClick_muted (s : IntroState) :
    (videoClickHandler s).muted = !s.muted := by
  cases h : s.muted <;> simp [videoClickHandler, ensureAudio, h]

theorem videoClick_of_muted {s : IntroState} (h : s.muted = true) :
    (videoClickHandler s).volume = 1 ∧
    (videoClickHandler s).playAttempts = s.playAttempts + 1 := by
  simp [videoClickHandler, ensureAudio, h]

theorem videoClick_audioResumes (s : IntroState) :
    (videoClickHandler s).audioResumes = s.audioResumes + 1 := by
  cases h : s.muted <;> simp [videoClickHandler, ensureAudio, h]

theorem videoClick_gfields (s : IntroState) :
    (videoClickHandler s).clickL = s.clickL ∧
    (videoClickHandler s).keyL = s.keyL ∧
    (videoClickHandler s).touchL = s.touchL ∧
    (videoClickHandler s).gestureRuns = s.gestureRuns := by
  cases h : s.muted <;> simp [videoClickHandler, ensureAudio, h]

theorem fireDoc_volume_of (k : GKind) (s : IntroState) :
    (fireDocListener k s).volume = s.volume ∧
    (fireDocListener k s).muted = s.muted ∧
    (fireDocListener k s).playAttempts = s.playAttempts :=
  ⟨fireDoc_volume k s, fireDoc_muted k s, fireDoc_playAttempts k s⟩

/-- C2 counterexample: at the fresh controller state, a message from an
origin different from the page origin and carrying the recognized type
intro-skip does navigate: the listener never reads the sender origin, so
the claimed origin validation does not happen. -/
theorem message_foreign_origin_navigates :
    ("https://attacker.example" ≠ pageOrigin) ∧
    introInit.navigated = false ∧
    (onMessage introInit
      ⟨"https://attacker.example", .obj (.str "intro-skip")⟩).navigated = true := by
  refine ⟨by decide, rfl, by decide⟩

/-- C2 amended: the message listener performs no origin validation: its
result never depends on the sender origin, and a message with a
recognized type triggers navigation from any origin whatsoever. -/
theorem message_origin_ignored (o : String) (d : MsgData) (s : IntroState) :
    onMessage s ⟨o, d⟩ = onMessage s ⟨pageOrigin, d⟩ ∧
    (onMessage s ⟨o, .obj (.str "intro-skip")⟩).navigated = true := by
  constructor
  · rfl
  · have h1 : recognizedType "intro-skip" = true := by decide
    simp [onMessage, messageBody, isFalsyData, readTypeField, h1,
      goToOrb_navigated_true]

/-- C3 counterexample: at the fresh controller state, the media-ended
event navigates but posts no IntroSignal to the parent, and the skip
click likewise: the claimed intro-ended emission does not happen. -/
theorem ended_emits_nothing :
    (step introInit .mediaEnded).navigated = true ∧
    (step introInit .mediaEnded).posted = [] ∧
    (step introInit .skipClick).posted = [] := by
  refine ⟨rfl, rfl, rfl⟩

/-- C3 amended: media end and skip click both navigate forward and are
no-ops on the navigation state once the latch is set, but neither emits
any IntroSignal to the embedding context: the handlers call only goToOrb,
never the safePost emitter. -/
theorem ended_skip_navigate_no_emit (s : IntroState) :
    (step s .mediaEnded).navigated = true ∧
    (step s .skipClick).navigated = true ∧
    (step s .mediaEnded).posted = s.posted ∧
    (step s .skipClick).posted = s.posted ∧
    (s.navigated = true → (step s .mediaEnded).navCount = s.navCount ∧
      (step s .skipClick).navCount = s.navCount) := by
  refine ⟨goToOrb_navigated_true s, ?_, goToOrb_posted s, ?_, ?_⟩
  · rw [show (step s .skipClick).navigated = (goToOrb s).navigated from
      fireDoc_navigated _ _]
    exact goToOrb_navigated_true s
  · rw [show (step s .skipClick).posted = (goToOrb s).posted from
      fireDoc_posted _ _]
    exact goToOrb_posted s
  · intro h
    constructor
    · show (goToOrb s).navCount = s.navCount
      rw [goToOrb_of_navigated h]
    · rw [show (step s .skipClick).navCount = (goToOrb s).navCount from
        fireDoc_navCount _ _, goToOrb_of_navigated h]

/-- Witness for the amended C3 at a state with the latch already set. -/
theorem ended_skip_navigate_no_emit_witness :
    (step (step introInit .mediaEnded) .mediaEnded).navCount
      = (step introInit .mediaEnded).navCount ∧
    (step (step introInit .mediaEnded) .mediaEnded).posted
      = (step introInit .mediaEnded).posted :=
  ⟨((ended_skip_navigate_no_emit (step introInit .mediaEnded)).2.2.2.2 rfl).1,
   (ended_skip_navigate_no_emit (step introInit .mediaEnded)).2.2.1⟩

/-- C4: a malformed message — null or undefined payload, a type field
that is no string, or a type outside the recognized set — leaves the
listener body without an exception and without any state change: no
navigation, silently ignored. -/
theorem malformed_message_ignored (s : IntroState) (ev : MessageEvent)
    (h : malformedData ev.data = true) :
    messageBody s ev = Except.ok s ∧ onMessage s ev = s := by
  obtain ⟨o, d⟩ := ev
  cases d with
  | jsNull => exact ⟨rfl, rfl⟩
  | jsUndefined => exact ⟨rfl, rfl⟩
  | obj tf =>
    cases tf with
    | absent => exact ⟨rfl, rfl⟩
    | nonString => exact ⟨rfl, rfl⟩
    | str t =>
      have h1 : recognizedType t = false := by
        simpa [malformedData] using h
      constructor
      · simp [messageBody, isFalsyData, readTypeField, h1]
      · simp [onMessage, messageBody, isFalsyData, readTypeField, h1]

/-- Witness for C4 at a concrete unrecognized type. -/
theorem malformed_message_ignored_witness :
    messageBody introInit ⟨"https://parent.example", .obj (.str "bogus")⟩
      = Except.ok introInit ∧
    onMessage introInit ⟨"https://parent.example", .obj (.str "bogus")⟩
      = introInit :=
  malformed_message_ignored introInit _ (by decide)

/-- C5: safePost attempts the page-origin delivery first, attempts the
wildcard delivery exactly when the first throws, and returns normally in
every case: both failures are swallowed. -/
theorem safePost_fallback (env : PostEnv) (ty : String) :
    (safePost env ty).2 = Except.ok () ∧
    (safePost env ty).1.head? = some (PostTarget.sameOrigin, ty) ∧
    (env.sameOriginThrows = false →
      (safePost env ty).1 = [(PostTarget.sameOrigin, ty)]) ∧
    (env.sameOriginThrows = true →
      (safePost env ty).1
        = [(PostTarget.sameOrigin, ty), (PostTarget.star, ty)]) := by
  obtain ⟨so, sw⟩ := env
  cases so <;> cases sw <;> simp [safePost, postMessageTo]

/-- Witness for C5 in the embedding where both deliveries throw. -/
theorem safePost_fallback_witness :
    (safePost ⟨true, true⟩ "intro-ended").2 = Except.ok () ∧
    (safePost ⟨true, true⟩ "intro-ended").1
      = [(PostTarget.sameOrigin, "intro-ended"),
         (PostTarget.star, "intro-ended")] :=
  ⟨(safePost_fallback ⟨true, true⟩ "intro-ended").1,
   (safePost_fallback ⟨true, true⟩ "intro-ended").2.2.2 rfl⟩

/-- C9: a click on the media element toggles the mute state — unmuting
sets volume 1 and attempts play — and attempts an audio-context resume,
while the navigation latch and the navigation count stay untouched. -/
theorem video_click_toggles_mute (s : IntroState) :
    (step s .videoClick).navigated = s.navigated ∧
    (step s .videoClick).navCount = s.navCount ∧
    (step s .videoClick).muted = !s.muted ∧
    (s.muted = true → (step s .videoClick).volume = 1 ∧
      (step s .videoClick).playAttempts = s.playAttempts + 1) ∧
    s.audioResumes < (step s .videoClick).audioResumes := by
  have hnav : (step s .videoClick).navigated = s.navigated := by
    rw [show (step s .videoClick).navigated = (videoClickHandler s).navigated from
      fireDoc_navigated _ _, videoClick_navigated]
  have hcnt : (step s .videoClick).navCount = s.navCount := by
    rw [show (step s .videoClick).navCount = (videoClickHandler s).navCount from
      fireDoc_navCount _ _, videoClick_navCount]
  have hmut : (step s .videoClick).muted = !s.muted := by
    rw [show (step s .videoClick).muted = (videoClickHandler s).muted from
      fireDoc_muted _ _, videoClick_muted]
  refine ⟨hnav, hcnt, hmut, ?_, ?_⟩
  · intro h
    constructor
    · rw [show (step s .videoClick).volume = (videoClickHandler s).volume from
        fireDoc_volume _ _]
      exact (videoClick_of_muted h).1
    · rw [show (step s .videoClick).playAttempts
          = (videoClickHandler s).playAttempts from fireDoc_playAttempts _ _]
      exact (videoClick_of_muted h).2
  · calc s.audioResumes < s.audioResumes + 1 := Nat.lt_succ_self _
      _ = (videoClickHandler s).audioResumes := (videoClick_audioResumes s).symm
      _ ≤ (step s .videoClick).audioResumes := fireDoc_audioResumes_ge _ _

/-- Witness for C9 at the initial muted state. -/
theorem video_click_toggles_mute_witness :
    (step introInit .videoClick).muted = !introInit.muted ∧
    (step introInit .videoClick).volume = 1 ∧
    (step introInit .videoClick).playAttempts = introInit.playAttempts + 1 ∧
    (step introInit .videoClick).navigated = introInit.navigated :=
  ⟨(video_click_toggles_mute introInit).2.2.1,
   ((video_click_toggles_mute introInit).2.2.2.1 rfl).1,
   ((video_click_toggles_mute introInit).2.2.2.1 rfl).2,
   (video_click_toggles_mute introInit).1⟩

/-! ## Gesture-listener lemmas for C8 -/

theorem gestureGood_of_fields {s t : IntroState} (h : gestureGood s)
    (hc : t.clickL = s.clickL) (hk : t.keyL = s.keyL)
    (ht : t.touchL = s.touchL) (hr : t.gestureRuns = s.gestureRuns) :
    gestureGood t := by
  rcases h with ⟨a, b, c, d⟩ | ⟨a, b, c, d⟩
  · left; exact ⟨hr.trans a, hc.trans b, hk.trans c, ht.trans d⟩
  · right; exact ⟨hr.trans a, hc.trans b, hk.trans c, ht.trans d⟩

theorem gestureFired_of_fields {s t : IntroState} (h : gestureFired s)
    (hc : t.clickL = s.clickL) (hk : t.keyL = s.keyL)
    (ht : t.touchL = s.touchL) (hr : t.gestureRuns = s.gestureRuns) :
    gestureFired t := by
  obtain ⟨a, b, c, d⟩ := h
  exact ⟨hr.trans a, hc.trans b, hk.trans c, ht.trans d⟩

theorem fireDoc_of_fired (k : GKind) {s : IntroState} (h : gestureFired s) :
    fireDocListener k s = s := by
  obtain ⟨_, b, c, d⟩ := h
  cases k <;> simp [fireDocListener, b, c, d]

theorem fireDoc_of_armed (k : GKind) {s : IntroState} (h : gestureArmed s) :
    gestureFired (fireDocListener k s) := by
  obtain ⟨a, b, c, d⟩ := h
  cases k <;>
    simp [fireDocListener, b, c, d, onFirstGesture, ensureAudio, gestureFired, a]

theorem fireDoc_fires (k : GKind) {s : IntroState} (h : gestureGood s) :
    gestureFired (fireDocListener k s) := by
  rcases h with h | h
  · exact fireDoc_of_armed k h
  · rw [fireDoc_of_fired k h]; exact h

theorem fireDoc_gestureGood (k : GKind) {s : IntroState} (h : gestureGood s) :
    gestureGood (fireDocListener k s) :=
  Or.inr (fireDoc_fires k h)

theorem onMessage_gfields (s : IntroState) (ev : MessageEvent) :
    (onMessage s ev).clickL = s.clickL ∧ (onMessage s ev).keyL = s.keyL ∧
    (onMessage s ev).touchL = s.touchL ∧
    (onMessage s ev).gestureRuns = s.gestureRuns := by
  rcases onMessage_cases s ev with h | h
  · rw [h]; exact ⟨rfl, rfl, rfl, rfl⟩
  · rw [h]; exact goToOrb_gfields s

theorem step_gestureGood (s : IntroState) (e : Event) (h : gestureGood s) :
    gestureGood (step s e) := by
  cases e with
  | mediaEnded =>
    obtain ⟨h1, h2, h3, h4⟩ := goToOrb_gfields s
    exact gestureGood_of_fields h h1 h2 h3 h4
  | skipClick =>
    obtain ⟨h1, h2, h3, h4⟩ := goToOrb_gfields s
    exact fireDoc_gestureGood _ (gestureGood_of_fields h h1 h2 h3 h4)
  | message ev =>
    obtain ⟨h1, h2, h3, h4⟩ := onMessage_gfields s ev
    exact gestureGood_of_fields h h1 h2 h3 h4
  | videoClick =>
    obtain ⟨h1, h2, h3, h4⟩ := videoClick_gfields s
    exact fireDoc_gestureGood _ (gestureGood_of_fields h h1 h2 h3 h4)
  | docClick => exact fireDoc_gestureGood _ h
  | keydown => exact fireDoc_gestureGood _ h
  | touchstart => exact fireDoc_gestureGood _ h

theorem step_gesture_fires (s : IntroState) (e : Event) (h : gestureGood s)
    (he : isGestureEvent e = true) : gestureFired (step s e) := by
  cases e with
  | mediaEnded => simp [isGestureEvent] at he
  | message ev => simp [isGestureEvent] at he
  | skipClick =>
    obtain ⟨h1, h2, h3, h4⟩ := goToOrb_gfields s
    exact fireDoc_fires _ (gestureGood_of_fields h h1 h2 h3 h4)
  | videoClick =>
    obtain ⟨h1, h2, h3, h4⟩ := videoClick_gfields s
    exact fireDoc_fires _ (gestureGood_of_fields h h1 h2 h3 h4)
  | docClick => exact fireDoc_fires _ h
  | keydown => exact fireDoc_fires _ h
  | touchstart => exact fireDoc_fires _ h

theorem step_fired_stable (s : IntroState) (e : Event) (h : gestureFired s) :
    gestureFired (step s e) := by
  cases e with
  | mediaEnded =>
    obtain ⟨h1, h2, h3, h4⟩ := goToOrb_gfields s
    exact gestureFired_of_fields h h1 h2 h3 h4
  | skipClick =>
    obtain ⟨h1, h2, h3, h4⟩ := goToOrb_gfields s
    have hf : gestureFired (goToOrb s) := gestureFired_of_fields h h1 h2 h3 h4
    rw [show step s .skipClick = fireDocListener .gclick (goToOrb s) from rfl,
      fireDoc_of_fired _ hf]
    exact hf
  | message ev =>
    obtain ⟨h1, h2, h3, h4⟩ := onMessage_gfields s ev
    exact gestureFired_of_fields h h1 h2 h3 h4
  | videoClick =>
    obtain ⟨h1, h2, h3, h4⟩ := videoClick_gfields s
    have hf : gestureFired (videoClickHandler s) :=
      gestureFired_of_fields h h1 h2 h3 h4
    rw [show step s .videoClick = fireDocListener .gclick (videoClickHandler s)
      from rfl, fireDoc_of_fired _ hf]
    exact hf
  | docClick => rw [show step s .docClick = fireDocListener .gclick s from rfl,
      fireDoc_of_fired _ h]; exact h
  | keydown => rw [show step s .keydown = fireDocListener .gkey s from rfl,
      fireDoc_of_fired _ h]; exact h
  | touchstart => rw [show step s .touchstart = fireDocListener .gtouch s
      from rfl, fireDoc_of_fired _ h]; exact h

theorem foldl_fired_stable (evs : List Event) :
    ∀ s, gestureFired s → gestureFired (evs.foldl step s) := by
  induction evs with
  | nil => intro s h; exact h
  | cons e rest ih => intro s h; exact ih _ (step_fired_stable s e h)

theorem foldl_gestureGood (evs : List Event) :
    ∀ s, gestureGood s → gestureGood (evs.foldl step s) := by
  induction evs with
  | nil => intro s h; exact h
  | cons e rest ih => intro s h; exact ih _ (step_gestureGood s e h)

theorem foldl_gesture_fires (evs : List Event) :
    ∀ s, gestureGood s → (∃ e ∈ evs, isGestureEvent e = true) →
      gestureFired (evs.foldl step s) := by
  induction evs with
  | nil =>
    intro s _ hex
    obtain ⟨e, he, _⟩ := hex
    exact absurd he (List.not_mem_nil e)
  | cons e rest ih =>
    intro s hg hex
    by_cases hge : isGestureEvent e = true
    · exact foldl_fired_stable rest _ (step_gesture_fires s e hg hge)
    · obtain ⟨e1, he1, hp1⟩ := hex
      rcases List.mem_cons.mp he1 with rfl | he1
      · exact absurd hp1 hge
      · exact ih _ (step_gestureGood s e hg) ⟨e1, he1, hp1⟩

/-- C8: over any event sequence from the fresh controller, the
first-gesture handler runs at most once across the click, keydown and
touchstart listeners; it runs exactly once when at least one gesture
event occurs, and after that first run all three document listeners are
removed. -/
theorem first_gesture_once (evs : List Event) :
    (run evs).gestureRuns ≤ 1 ∧
    ((∃ e ∈ evs, isGestureEvent e = true) →
      (run evs).gestureRuns = 1 ∧ (run evs).clickL = false ∧
      (run evs).keyL = false ∧ (run evs).touchL = false) := by
  have harm : gestureArmed introInit := ⟨rfl, rfl, rfl, rfl⟩
  have hg : gestureGood (run evs) :=
    foldl_gestureGood evs introInit (Or.inl harm)
  constructor
  · rcases hg with ⟨a, _⟩ | ⟨a, _⟩
    · rw [a]; exact Nat.zero_le 1
    · rw [a]
  · intro hex
    exact foldl_gesture_fires evs introInit (Or.inl harm) hex

/-- Witness for C8 at a single keydown. -/
theorem first_gesture_once_witness :
    (run [Event.keydown]).gestureRuns = 1 ∧
    (run [Event.keydown]).clickL = false ∧
    (run [Event.keydown]).keyL = false ∧
    (run [Event.keydown]).touchL = false :=
  (first_gesture_once [Event.keydown]).2 ⟨Event.keydown, by decide, rfl⟩

/-! ## Session manager lemmas for C6 and C7 -/

theorem lookupField_setField_same (fs : List (String × String)) (k v : String) :
    lookupField (setField fs k v) k = some v := by
  induction fs with
  | nil => simp [setField, lookupField]
  | cons p rest ih =>
    obtain ⟨k1, v1⟩ := p
    by_cases h : k1 = k
    · simp [setField, h, lookupField]
    · simp [setField, h, lookupField, ih]

theorem lookupField_setField_ne (fs : List (String × String))
    (k v k2 : String) (h : k ≠ k2) :
    lookupField (setField fs k v) k2 = lookupField fs k2 := by
  induction fs with
  | nil => simp [setField, lookupField, h]
  | cons p rest ih =>
    obtain ⟨k1, v1⟩ := p
    by_cases h1 : k1 = k
    · subst h1; simp [setField, lookupField, h]
    · simp [setField, h1, lookupField, ih]

theorem lookupSession_update (l : List (Nat × Session)) (sid : Nat)
    (s1 : Session) (sess : Session)
    (h : lookupSession l sid = some sess) :
    lookupSession (updateSession l sid s1) sid = some s1 := by
  induction l with
  | nil => simp [lookupSession] at h
  | cons p rest ih =>
    obtain ⟨i, s0⟩ := p
    by_cases h1 : i = sid
    · subst h1
      have hu : updateSession ((i, s0) :: rest) i s1
          = (i, s1) :: updateSession rest i s1 := by
        simp [updateSession]
      rw [hu]
      simp [lookupSession]
    · have hu : updateSession ((i, s0) :: rest) sid s1
          = (i, s0) :: updateSession rest sid s1 := by
        simp [updateSession, h1]
      rw [hu]
      simp only [lookupSession, if_neg h1] at h ⊢
      exact ih h

/-- C6: respond on an unknown session id — one never created by start —
or on a session already COMPLETE or FAILED fails with NotFound; the error
return carries no updated manager state, so nothing is mutated. -/
theorem respond_notfound (st : ManagerState) (sid : Nat) (utt : String)
    (r : BackendReply)
    (h : lookupSession st.sessions sid = none ∨
      ∃ sess, lookupSession st.sessions sid = some sess ∧
        (sess.status = Status.COMPLETE ∨ sess.status = Status.FAILED)) :
    respond st sid utt r = Except.error SessionError.NotFound := by
  rcases h with h | ⟨sess, hs, ht⟩
  · unfold respond; rw [h]
  · unfold respond; rw [hs]
    show (if sess.status = Status.COMPLETE ∨ sess.status = Status.FAILED
      then Except.error SessionError.NotFound else _) = _
    rw [if_pos ht]

/-- Witness for C6 on a manager holding one COMPLETE session. -/
theorem respond_notfound_witness :
    respond ⟨[(0, ⟨[], [], Status.COMPLETE⟩)], 1⟩ 0 "hello"
      ⟨"reply", [], Status.ACTIVE⟩ = Except.error SessionError.NotFound :=
  respond_notfound _ _ _ _ (Or.inr ⟨_, rfl, Or.inl rfl⟩)

/-- C7: two respond calls on the same active session, serialized in issue
order as the spec requires, apply both collectedFields merges: a field
written by the first call and not overwritten by the second is present
afterwards, and the field written by the second is present, never only
one of them. -/
theorem respond_serialized_merge (st : ManagerState) (sid : Nat)
    (sess : Session) (u1 u2 a1 a2 k1 v1 k2 v2 : String) (t1 t2 : Status)
    (hlk : lookupSession st.sessions sid = some sess)
    (hact : sess.status = Status.ACTIVE)
    (ht1c : t1 ≠ Status.COMPLETE) (ht1f : t1 ≠ Status.FAILED)
    (hk : k1 ≠ k2) :
    ∃ sess2,
      lookupSession (runSerialized st
        [⟨sid, u1, ⟨a1, [(k1, v1)], t1⟩⟩,
         ⟨sid, u2, ⟨a2, [(k2, v2)], t2⟩⟩]).sessions sid = some sess2 ∧
      lookupField sess2.collectedFields k1 = some v1 ∧
      lookupField sess2.collectedFields k2 = some v2 := by
  have hne : ¬(sess.status = Status.COMPLETE ∨ sess.status = Status.FAILED) := by
    simp [hact]
  have h1 : stepReq st ⟨sid, u1, ⟨a1, [(k1, v1)], t1⟩⟩
      = { st with sessions := (updateSession st.sessions sid
          ⟨sess.turns ++ [(Speaker.user, u1), (Speaker.assistant, a1)],
           setField sess.collectedFields k1 v1, t1⟩) } := by
    simp only [stepReq, respond, hlk, if_neg hne]
    rfl
  have hlk1 : lookupSession (stepReq st
      ⟨sid, u1, ⟨a1, [(k1, v1)], t1⟩⟩).sessions sid
      = some ⟨sess.turns ++ [(Speaker.user, u1), (Speaker.assistant, a1)],
              setField sess.collectedFields k1 v1, t1⟩ := by
    rw [h1]
    exact lookupSession_update _ _ _ _ hlk
  have hne1 : ¬(t1 = Status.COMPLETE ∨ t1 = Status.FAILED) := by
    rintro (h | h)
    · exact ht1c h
    · exact ht1f h
  have h2 : stepReq (stepReq st ⟨sid, u1, ⟨a1, [(k1, v1)], t1⟩⟩)
      ⟨sid, u2, ⟨a2, [(k2, v2)], t2⟩⟩
      = { stepReq st ⟨sid, u1, ⟨a1, [(k1, v1)], t1⟩⟩ with
          sessions := (updateSession
            (stepReq st ⟨sid, u1, ⟨a1, [(k1, v1)], t1⟩⟩).sessions sid
            ⟨(sess.turns ++ [(Speaker.user, u1), (Speaker.assistant, a1)])
                ++ [(Speaker.user, u2), (Speaker.assistant, a2)],
             setField (setField sess.collectedFields k1 v1) k2 v2, t2⟩) } := by
    rw [show stepReq (stepReq st ⟨sid, u1, ⟨a1, [(k1, v1)], t1⟩⟩)
        ⟨sid, u2, ⟨a2, [(k2, v2)], t2⟩⟩
        = match respond (stepReq st ⟨sid, u1, ⟨a1, [(k1, v1)], t1⟩⟩) sid u2
            ⟨a2, [(k2, v2)], t2⟩ with
          | .ok (st1, _, _) => st1
          | .error _ => stepReq st ⟨sid, u1, ⟨a1, [(k1, v1)], t1⟩⟩ from rfl]
    simp only [respond, hlk1, if_neg hne1]
    rfl
  refine ⟨⟨(sess.turns ++ [(Speaker.user, u1), (Speaker.assistant, a1)])
        ++ [(Speaker.user, u2), (Speaker.assistant, a2)],
      setField (setField sess.collectedFields k1 v1) k2 v2, t2⟩, ?_, ?_, ?_⟩
  · show lookupSession (stepReq (stepReq st ⟨sid, u1, ⟨a1, [(k1, v1)], t1⟩⟩)
      ⟨sid, u2, ⟨a2, [(k2, v2)], t2⟩⟩).sessions sid = _
    rw [h2]
    exact lookupSession_update _ _ _ _ hlk1
  · show lookupField (setField (setField sess.collectedFields k1 v1) k2 v2) k1
      = some v1
    rw [lookupField_setField_ne _ _ _ _ (Ne.symm hk)]
    exact lookupField_setField_same _ _ _
  · exact lookupField_setField_same _ _ _

/-- Witness for C7: the spec scenario of a flight number then a delay
reason merged on one session. -/
theorem respond_serialized_merge_witness :
    ∃ sess2,
      lookupSession (runSerialized ⟨[(0, ⟨[], [], Status.ACTIVE⟩)], 1⟩
        [⟨0, "my flight was AB1",
          ⟨"when was it", [("flightNumber", "AB1")], Status.AWAITING_USER⟩⟩,
         ⟨0, "weather delay",
          ⟨"thanks", [("delayReason", "weather")], Status.COMPLETE⟩⟩]).sessions 0
        = some sess2 ∧
      lookupField sess2.collectedFields "flightNumber" = some "AB1" ∧
      lookupField sess2.collectedFields "delayReason" = some "weather" :=
  respond_serialized_merge ⟨[(0, ⟨[], [], Status.ACTIVE⟩)], 1⟩ 0
    ⟨[], [], Status.ACTIVE⟩ "my flight was AB1" "weather delay"
    "when was it" "thanks" "flightNumber" "AB1" "delayReason" "weather"
    Status.AWAITING_USER Status.COMPLETE rfl rfl (by decide) (by decide)
    (by decide)

/-! ## URL joining lemmas for C10 -/

theorem head_dropWhile_slash (l : List Char) :
    ((l.dropWhile fun c => c = '/').head?) ≠ some '/' := by
  induction l with
  | nil => simp [List.dropWhile]
  | cons c rest ih =>
    by_cases h : c = '/'
    · simpa [List.dropWhile, h] using ih
    · simp [List.dropWhile, h]

theorem stripLeading_no_slash (s : String) :
    (stripLeadingSlashes s).data.head? ≠ some '/' := by
  simpa [stripLeadingSlashes] using head_dropWhile_slash s.data

theorem stripTrailing_no_slash (s : String) :
    (stripTrailingSlashes s).data.getLast? ≠ some '/' := by
  show ((s.data.reverse.dropWhile fun c => c = '/').reverse).getLast? ≠ some '/'
  rw [List.getLast?_reverse]
  exact head_dropWhile_slash s.data.reverse

/-- C10: apiFetch passes a path that starts with a URI scheme to fetch
unchanged; any other path is joined to the base — configured URL or page
origin, trailing slashes stripped — by exactly one slash after stripping
the leading slashes of the path, and neither side of the join carries a
slash of its own, so no doubled slash appears at the join point. -/
theorem apiFetch_join (baseUrl : Option String) (origin path : String) :
    (startsWithScheme path = true → apiFetch baseUrl origin path = path) ∧
    (startsWithScheme path = false →
      apiFetch baseUrl origin path
        = stripTrailingSlashes (jsOr baseUrl origin) ++ "/"
          ++ stripLeadingSlashes path ∧
      (stripTrailingSlashes (jsOr baseUrl origin)).data.getLast? ≠ some '/' ∧
      (stripLeadingSlashes path).data.head? ≠ some '/') := by
  constructor
  · intro h
    simp [apiFetch, h]
  · intro h
    exact ⟨by simp [apiFetch, h, apiBase], stripTrailing_no_slash _,
      stripLeading_no_slash _⟩

/-- Witness for C10: an absolute URL goes through unchanged, and a
slash-laden relative path joins with a single slash. -/
theorem apiFetch_join_witness :
    apiFetch (some "https://api.example//") "https://page.example"
      "https://cdn.example/x.js" = "https://cdn.example/x.js" ∧
    apiFetch (some "https://api.example//") "https://page.example"
      "//conversation/start"
      = stripTrailingSlashes (jsOr (some "https://api.example//")
          "https://page.example") ++ "/"
        ++ stripLeadingSlashes "//conversation/start" :=
  ⟨(apiFetch_join (some "https://api.example//") "https://page.example"
      "https://cdn.example/x.js").1 (by decide),
   ((apiFetch_join (some "https://api.example//") "https://page.example"
      "//conversation/start").2 (by decide)).1⟩

end E261
